import Mathlib

/-!
Formal model of the EPA drinking-water compliance pipeline implemented in
`compliance_analysis.py` (class `EPAComplianceAnalyzer`):

* `detect_violations`            — threshold rule engine over laboratory samples
* `assess_severity`              — per-parameter severity labels
* `generate_public_notifications`— templated public notices
* `generate_federal_reporting`   — flat federal summary report

Numbers are modelled with `ℚ`.  Python `float` arithmetic and its banker's
rounding agree with the exact rational computation at every value exercised
by this development (checked against CPython for the concrete inputs used
below); `round(x, n)` and `"%.1f"` formatting are both modelled as
round-half-to-even on rationals.
-/

/-- A sample result cell as read from the CSV: either a string that parses as
a real number (`num q`), or a non-numeric literal such as `"Present"`,
`"Absent"`, `"N/A"` (`lit s`).  A string that `float()` accepts is never the
exact string `"Present"`, and `float("Present")` raises, so the two
constructors are disjoint in behaviour exactly as in Python. -/
inductive ResultStr where
  | lit (s : String)
  | num (q : ℚ)
deriving DecidableEq

/-- Python `float(result)` wrapped in `try/except ValueError`:
`some` iff the string parses as a real number. -/
def parseResult : ResultStr → Option ℚ
  | ResultStr.lit _ => none
  | ResultStr.num q => some q

/-- Python `result == 'Present'` (string comparison on the raw cell). -/
def isPresentSentinel : ResultStr → Bool
  | ResultStr.lit s => s == "Present"
  | ResultStr.num _ => false

/-- One row of the laboratory-results table.  Only the columns the pipeline
reads (`Parameter`, `Result`, `Sample_Location`, `Collection_Time`) are
modelled; the remaining CSV columns are never consulted by the functions
formalised here. -/
structure Sample where
  parameter : String
  result : ResultStr
  sample_location : String
  collection_time : String
deriving DecidableEq

/-- The `exceedance_factor` field of a finding: the numeric ratio for
numeric parameters, or the literal Python string `'ACUTE'` for E.coli. -/
inductive ExFactor where
  | acute
  | val (q : ℚ)
deriving DecidableEq

/-- `self.mcls` — the regulatory limit table (CFR Title 40 values hardcoded
in `EPAComplianceAnalyzer.__init__`); `none` models a key that is absent
from the Python dict (`self.mcls.get(parameter)` returning `None`). -/
def mcls : String → Option ℚ
  | "E.coli" => some 0
  | "Lead" => some 15
  | "Copper" => some 1300
  | "PFOA" => some 4
  | _ => none

/-- `self.violation_tiers`.  The default `""` models the `KeyError` branch:
the Python dict access `self.violation_tiers[parameter]` is only reached for
parameters that are keys of `mcls`, where it never raises. -/
def violation_tiers : String → String
  | "E.coli" => "Tier 1"
  | "Lead" => "Tier 2"
  | "Copper" => "Tier 2"
  | "PFOA" => "Tier 2"
  | _ => ""

/-- A tier's notification requirement (timeframe and media channels). -/
structure NotificationRequirement where
  timeframe : String
  media : List String
deriving DecidableEq

/-- `self.notification_requirements`.  The default entry models the
`KeyError` branch: lookups happen only at tiers stored in findings, which
the detector always draws from `violation_tiers`. -/
def notification_requirements : String → NotificationRequirement
  | "Tier 1" => ⟨"24 hours", ["Public Notice", "Direct Contact", "Media Alert"]⟩
  | "Tier 2" => ⟨"30 days", ["Public Notice", "Newspaper"]⟩
  | "Tier 3" => ⟨"1 year", ["Annual Report"]⟩
  | _ => ⟨"", []⟩

/-- Round-half-to-even to an integer, which is what Python's `round` and
`%.Nf` float formatting perform on the (exact) value being rounded. -/
def pyRound (q : ℚ) : ℤ :=
  let f : ℤ := q.num.fdiv q.den
  let r : ℚ := q - f
  if r < 1/2 then f
  else if 1/2 < r then f + 1
  else if f % 2 = 0 then f else f + 1

/-- Python `round(q, 2)`. -/
def round2 (q : ℚ) : ℚ := (pyRound (q * 100) : ℚ) / 100

/-- One violation finding, exactly the dict appended by
`detect_violations` (fields `sample_location`, `result`, `mcl`,
`exceedance_factor`, `collection_time`, `tier`). -/
structure Finding where
  sample_location : String
  result : ResultStr
  mcl : ℚ
  exceedance_factor : ExFactor
  collection_time : String
  tier : String
deriving DecidableEq

/-- The per-row body of the inner loop of `detect_violations`: given the
group's parameter name and its limit, produce the finding for one row, or
`none` when the row yields no finding (result not `'Present'` for E.coli;
`float` parse failure or `result_value <= mcl` for numeric parameters). -/
def sampleFinding (parameter : String) (mcl : ℚ) (row : Sample) : Option Finding :=
  if parameter == "E.coli" then
    if isPresentSentinel row.result then
      some { sample_location := row.sample_location
             result := row.result
             mcl := mcl
             exceedance_factor := ExFactor.acute
             collection_time := row.collection_time
             tier := violation_tiers parameter }
    else none
  else
    match parseResult row.result with
    | none => none
    | some result_value =>
      if mcl < result_value then
        some { sample_location := row.sample_location
               result := ResultStr.num result_value
               mcl := mcl
               exceedance_factor := ExFactor.val (round2 (result_value / mcl))
               collection_time := row.collection_time
               tier := violation_tiers parameter }
      else none

/-- First-occurrence deduplication, the order `pandas` `Series.unique`
iterates the distinct values of the `Parameter` column. -/
def uniqueFirstAux (seen : List String) : List String → List String
  | [] => []
  | x :: xs =>
    if x ∈ seen then uniqueFirstAux seen xs
    else x :: uniqueFirstAux (x :: seen) xs

/-- `df['Parameter'].unique()` applied to the list of parameter names. -/
def uniqueFirst (l : List String) : List String := uniqueFirstAux [] l

/-- The body of the outer loop of `detect_violations` for one parameter:
look up the limit (`None` ⇒ `continue`), run the inner loop over that
parameter's rows, and keep the list only if non-empty. -/
def detectEntry (df : List Sample) (p : String) : Option (List Finding) :=
  match mcls p with
  | none => none
  | some mcl =>
    let pv := (df.filter (fun r => r.parameter == p)).filterMap (sampleFinding p mcl)
    if pv.isEmpty then none else some pv

/-- `EPAComplianceAnalyzer.detect_violations`.  The returned association
list models the Python dict `violations` (keys in insertion order, one entry
per parameter whose finding list is non-empty). -/
def detect_violations (df : List Sample) : List (String × List Finding) :=
  (uniqueFirst (df.map (fun r => r.parameter))).filterMap
    (fun p => (detectEntry df p).map (fun fs => (p, fs)))

/-- The numeric value of a stored exceedance factor.  `acute` is mapped to
`0`: Python's `max` would raise `TypeError` comparing the string `'ACUTE'`
with floats, and the branches of `assess_severity` that take a maximum are
only reached for parameters whose findings all carry numeric factors. -/
def exNum (f : Finding) : ℚ :=
  match f.exceedance_factor with
  | ExFactor.acute => 0
  | ExFactor.val q => q

/-- `max([v['exceedance_factor'] for v in violation_list])`.  The base `0`
is inert: the lists reaching this point are non-empty with all factors
positive (Python's `max` raises on an empty list, which the pipeline never
passes here because `detect_violations` only stores non-empty lists). -/
def maxEx (fs : List Finding) : ℚ := (fs.map exNum).foldr max 0

/-- The numeric value of a stored result (`lit` mapped to `0`; numeric
branches only ever store `num` results). -/
def resNum (f : Finding) : ℚ :=
  match f.result with
  | ResultStr.lit _ => 0
  | ResultStr.num q => q

/-- `max([v['result'] for v in violation_list])`, same conventions as
`maxEx`. -/
def maxResult (fs : List Finding) : ℚ := (fs.map resNum).foldr max 0

/-- The per-parameter `if/elif` chain of `assess_severity`: the label for a
parameter, or `none` for a parameter matching no branch (such a parameter
receives no severity entry in Python either). -/
def sevLabel (p : String) (fs : List Finding) : Option String :=
  if p == "E.coli" then
    some "CRITICAL - Immediate public health risk"
  else if p == "Lead" then
    some (if maxEx fs > 2.0 then "HIGH - Significant health risk"
          else "MODERATE - Health concern")
  else if p == "Copper" then
    some (if maxEx fs > 1.5 then "HIGH - Corrosion control failure"
          else "MODERATE - Corrosion monitoring required")
  else if p == "PFOA" then
    some (if maxEx fs > 2.0 then "HIGH - Persistent contamination"
          else "MODERATE - Monitoring required")
  else none

/-- `EPAComplianceAnalyzer.assess_severity`. -/
def assess_severity (violations : List (String × List Finding)) : List (String × String) :=
  violations.filterMap (fun pv => (sevLabel pv.1 pv.2).map (fun s => (pv.1, s)))

/-- Render a non-negative power-of-ten-denominator rational the way Python
`str` renders the corresponding float (`8.2` ↦ `"8.2"`, `20` ↦ `"20.0"`);
used only for the interpolated `{max_result}` template slots. -/
def fmtDec (q : ℚ) : String :=
  let s := if q < 0 then "-" else ""
  let n := q.num.natAbs
  let d := q.den
  match (List.range 19).find? (fun e => 10 ^ e % d == 0) with
  | some 0 => s ++ toString n ++ ".0"
  | some e =>
    let scaled := n * (10 ^ e / d)
    let frac := toString (scaled % 10 ^ e)
    s ++ toString (scaled / 10 ^ e) ++ "." ++
      String.mk (List.replicate (e - frac.length) '0') ++ frac
  | none => s ++ toString n ++ "/" ++ toString d

/-- Python `f"{q:.1f}"` for the non-negative values interpolated here:
round-half-to-even at one decimal digit. -/
def fmt1 (q : ℚ) : String :=
  let n := pyRound (q * 10)
  toString (n / 10) ++ "." ++ toString (n % 10)

/-- The `Notification Requirements:` line shared by all four templates:
`f"Notification Requirements: {notification_req['timeframe']} via
{', '.join(notification_req['media'])}"`. -/
def reqLine (req : NotificationRequirement) : String :=
  "Notification Requirements: " ++ req.timeframe ++ " via " ++
    String.intercalate ", " req.media

/-- The E.coli Tier 1 notice template (triple-quoted f-string of
`generate_public_notifications`). -/
def ecoliNotice (system_header : String) (req : NotificationRequirement) (sev : String) : String :=
  ("\nIMMEDIATE PUBLIC NOTICE - TIER 1 VIOLATION\n" ++ system_header ++
   "\n\nURGENT: DO NOT DRINK THE WATER WITHOUT BOILING IT FIRST\n\nE.coli bacteria have been found in your drinking water. This is an acute violation requiring immediate action.\n\nIMMEDIATE ACTIONS REQUIRED:\n- Boil all water for drinking, cooking, and brushing teeth for at least 1 minute\n- Use bottled water if available\n- Seek medical attention if you experience illness\n\nThe water system is taking corrective action and will notify you when the water is safe to drink.\n\n")
  ++ reqLine req
  ++ ("\nSeverity: " ++ sev ++ "\nDate of Violation: January 15, 2025\n                ")

/-- The Lead Tier 2 notice template. -/
def leadNotice (system_header : String) (violation_list : List Finding)
    (req : NotificationRequirement) (sev : String) : String :=
  ("\nPUBLIC NOTICE - TIER 2 VIOLATION\n" ++ system_header ++
   "\n\nLead levels in your drinking water exceed the EPA action level.\n\nVIOLATION DETAILS:\n- Maximum Lead Level: " ++
   fmtDec (maxResult violation_list) ++
   " ppb\n- EPA Action Level: 15 ppb\n- Number of Exceedances: " ++
   toString violation_list.length ++
   "\n\nHEALTH EFFECTS:\nLead can cause serious health problems, especially for pregnant women and young children. Lead in drinking water is primarily from materials and components associated with service lines and home plumbing.\n\nACTIONS BEING TAKEN:\n- Corrosion control treatment optimization\n- Additional monitoring and testing\n- Public education campaign\n\n")
  ++ reqLine req
  ++ ("\nSeverity: " ++ sev ++ "\n                ")

/-- The Copper Tier 2 notice template. -/
def copperNotice (system_header : String) (violation_list : List Finding)
    (req : NotificationRequirement) (sev : String) : String :=
  ("\nPUBLIC NOTICE - TIER 2 VIOLATION\n" ++ system_header ++
   "\n\nCopper levels in your drinking water exceed the EPA action level.\n\nVIOLATION DETAILS:\n- Maximum Copper Level: " ++
   fmtDec (maxResult violation_list) ++
   " ppb\n- EPA Action Level: 1300 ppb\n- Number of Exceedances: " ++
   toString violation_list.length ++
   "\n\nHEALTH EFFECTS:\nCopper is an essential nutrient, but some people who drink water containing copper in excess of the action level over a relatively short period could experience gastrointestinal distress.\n\nACTIONS BEING TAKEN:\n- Corrosion control treatment adjustment\n- pH optimization\n- Additional monitoring\n\n")
  ++ reqLine req
  ++ ("\nSeverity: " ++ sev ++ "\n                ")

/-- The PFOA Tier 2 notice template; the exceedance factor slot is
`f"{max_result/4:.1f}x"`. -/
def pfoaNotice (system_header : String) (violation_list : List Finding)
    (req : NotificationRequirement) (sev : String) : String :=
  ("\nPUBLIC NOTICE - TIER 2 VIOLATION\n" ++ system_header ++
   "\n\nPFOA levels in your drinking water exceed the EPA maximum contaminant level.\n\nVIOLATION DETAILS:\n- PFOA Level: " ++
   fmtDec (maxResult violation_list) ++
   " ng/L\n- EPA MCL: 4 ng/L\n- Exceedance Factor: " ++
   fmt1 (maxResult violation_list / 4) ++
   "x\n\nHEALTH EFFECTS:\nPFOA is a synthetic chemical that has been used in industry and consumer products. Some people who drink water containing PFOA in excess of the MCL over many years may experience certain health effects.\n\nACTIONS BEING TAKEN:\n- Enhanced treatment system implementation\n- Source water investigation\n- Alternative water supply evaluation\n\n")
  ++ reqLine req
  ++ ("\nSeverity: " ++ sev ++ "\n                ")

/-- `violation_list[0]['tier']`.  Python raises `IndexError` on an empty
list; the detector only ever stores non-empty lists, so `""` is inert. -/
def headTier : List Finding → String
  | [] => ""
  | f :: _ => f.tier

/-- Water-system record used for headers and the federal report (the fields
of the dict returned by `fetch_water_system_info`). -/
structure WaterSystemInfo where
  pwsid : String
  system_name : String
  population_served : ℤ
  system_type : String
  activity_status : String
  state_code : String
  city_name : String
  county_name : String
  owner_type : String
  data_source : String
deriving DecidableEq

/-- The per-parameter body of the loop of `generate_public_notifications`:
tier of the first finding, its notification requirement, the severity entry
(`severity[parameter]`, a `KeyError` in Python when absent — the pipeline
always passes a severity map containing every violated parameter), then the
`if/elif` template dispatch.  A parameter matching no branch produces no
notice, exactly as in Python. -/
def noticeFor (system_header : String) (severity : List (String × String))
    (p : String) (fs : List Finding) : Option String :=
  let tier := headTier fs
  let req := notification_requirements tier
  let sev := (List.lookup p severity).getD ""
  if p == "E.coli" then some (ecoliNotice system_header req sev)
  else if p == "Lead" then some (leadNotice system_header fs req sev)
  else if p == "Copper" then some (copperNotice system_header fs req sev)
  else if p == "PFOA" then some (pfoaNotice system_header fs req sev)
  else none

/-- The `system_header` local of `generate_public_notifications`: the real
water-system header when a record is available, else the literal
placeholder. -/
def systemHeader (water_system_info : Option WaterSystemInfo) : String :=
  match water_system_info with
  | some info => info.system_name ++ " (PWSID: " ++ info.pwsid ++ ")"
  | none => "{system_header}"

/-- `EPAComplianceAnalyzer.generate_public_notifications`. -/
def generate_public_notifications (violations : List (String × List Finding))
    (severity : List (String × String))
    (water_system_info : Option WaterSystemInfo) : List (String × String) :=
  violations.filterMap
    (fun pv => (noticeFor (systemHeader water_system_info) severity pv.1 pv.2).map
      (fun s => (pv.1, s)))

/-- One row of the federal report's `violations` list. -/
structure FedViolation where
  parameter : String
  violation_type : String
  tier : String
  sample_location : String
  result : ResultStr
  mcl_al : ℚ
  exceedance_factor : ExFactor
  severity : String
deriving DecidableEq

/-- The federal report record assembled by `generate_federal_reporting`. -/
structure FederalReport where
  report_type : String
  pwsid : String
  water_system_name : String
  population_served : ℤ
  system_type : String
  location : String
  report_date : String
  violation_date : String
  violations : List FedViolation
  immediate_actions_required : List String
  long_term_actions : List String
  system_data_source : String
deriving DecidableEq

/-- The four immediate actions appended when an E.coli violation is
present. -/
def boilWaterActions : List String :=
  ["Issue boil water advisory within 24 hours",
   "Collect repeat samples within 24 hours",
   "Notify state regulatory agency immediately",
   "Implement emergency disinfection protocols"]

/-- The immediate actions appended when a Lead or Copper violation is
present. -/
def leadCopperActions : List String :=
  ["Optimize corrosion control treatment",
   "Conduct follow-up monitoring",
   "Public notification within 30 days"]

/-- The immediate actions appended when a PFOA violation is present. -/
def pfoaActions : List String :=
  ["Evaluate treatment options",
   "Investigate contamination sources",
   "Public notification within 30 days"]

/-- The constant long-term action checklist assigned unconditionally. -/
def longTermActions : List String :=
  ["Submit corrective action plan within 30 days",
   "Implement enhanced monitoring program",
   "Conduct system-wide evaluation",
   "Submit quarterly compliance reports",
   "Maintain public notification requirements"]

/-- The system header values of `generate_federal_reporting`
(`system_name`, `pwsid`, `population_served`, `system_type`, `location`),
with the hardcoded fallback used when no water-system record exists. -/
def fedHeader (w : Option WaterSystemInfo) : String × String × ℤ × String × String :=
  match w with
  | some info =>
    (info.system_name, info.pwsid, info.population_served, info.system_type,
     info.city_name ++ ", " ++ info.county_name ++ " County, " ++ info.state_code)
  | none => ("Clinton Machine PWS", "OH7700001", 250, "NCWS", "Unknown")

/-- Python `'P' in violations` — dict key membership. -/
def hasKey (p : String) (violations : List (String × List Finding)) : Bool :=
  violations.any (fun pv => pv.1 == p)

/-- The flat `violations` rows of the federal report (nested loop over the
findings map; `severity[parameter]` as in `noticeFor`). -/
def fedViolationRows (violations : List (String × List Finding))
    (severity : List (String × String)) : List FedViolation :=
  violations.flatMap (fun pv => pv.2.map (fun v =>
    { parameter := pv.1
      violation_type := "MCL/AL Exceedance"
      tier := v.tier
      sample_location := v.sample_location
      result := v.result
      mcl_al := v.mcl
      exceedance_factor := v.exceedance_factor
      severity := (List.lookup pv.1 severity).getD "" }))

/-- `EPAComplianceAnalyzer.generate_federal_reporting`.  The Python code
stamps `report_date` with `datetime.now().strftime('%Y-%m-%d')`; in this
model the ambient clock reading is made explicit as the `today` argument —
it is not a caller-supplied input of the Python function. -/
def generate_federal_reporting (violations : List (String × List Finding))
    (severity : List (String × String))
    (water_system_info : Option WaterSystemInfo) (today : String) : FederalReport :=
  let h := fedHeader water_system_info
  { report_type := "Drinking Water Violation Report"
    pwsid := h.2.1
    water_system_name := h.1
    population_served := h.2.2.1
    system_type := h.2.2.2.1
    location := h.2.2.2.2
    report_date := today
    violation_date := "2025-01-15"
    violations := fedViolationRows violations severity
    immediate_actions_required :=
      (if hasKey "E.coli" violations then boilWaterActions else [])
      ++ (if hasKey "Lead" violations || hasKey "Copper" violations then leadCopperActions else [])
      ++ (if hasKey "PFOA" violations then pfoaActions else [])
    long_term_actions := longTermActions
    system_data_source :=
      match water_system_info with
      | some info => info.data_source
      | none => "FALLBACK" }

/-- The straight-line pipeline of `main`: detect, assess, notify, report
(the stages relevant to the outputs; loading and validation feed `df`). -/
def runPipeline (df : List Sample) (w : Option WaterSystemInfo) (today : String) :
    List (String × String) × FederalReport :=
  let v := detect_violations df
  let sev := assess_severity v
  (generate_public_notifications v sev w, generate_federal_reporting v sev w today)

/-- `needle` occurs as a contiguous substring of `hay`. -/
def strOccurs (needle hay : String) : Prop := ∃ a b : String, hay = a ++ needle ++ b

/-- `charsStart needle hay`: `hay` starts with `needle`. -/
def charsStart : List Char → List Char → Bool
  | [], _ => true
  | _ :: _, [] => false
  | a :: as, b :: bs => a == b && charsStart as bs

/-- `charsHave needle hay`: `needle` occurs contiguously in `hay`. -/
def charsHave (needle : List Char) : List Char → Bool
  | [] => needle.isEmpty
  | c :: rest => charsStart needle (c :: rest) || charsHave needle rest

/-- Executable substring test (Python `needle in hay`). -/
def strOccursB (needle hay : String) : Bool := charsHave needle.data hay.data

example :
    detect_violations [⟨"Lead", ResultStr.num 20, "TAP-1", "08:00"⟩] =
      [("Lead", [⟨"TAP-1", ResultStr.num 20, 15, ExFactor.val (133/100), "08:00", "Tier 2"⟩])] := by
  with_unfolding_all decide

theorem mcls_cases {p : String} {m : ℚ} (h : mcls p = some m) :
    (p = "E.coli" ∧ m = 0) ∨ (p = "Lead" ∧ m = 15) ∨
      (p = "Copper" ∧ m = 1300) ∨ (p = "PFOA" ∧ m = 4) := by
  unfold mcls at h
  split at h <;> simp_all

theorem ne_ecoli_of_mcls {p : String} {m : ℚ} (h : mcls p = some m) (hm : m ≠ 0) :
    p ≠ "E.coli" := by
  rcases mcls_cases h with ⟨hp, h0⟩ | ⟨hp, _⟩ | ⟨hp, _⟩ | ⟨hp, _⟩
  · exact absurd h0 hm
  all_goals subst hp; intro hc; exact absurd hc (by decide)

theorem lookup_keyed_filterMap {β : Type} (h : String → Option β) :
    ∀ (l : List String) (q : String),
      List.lookup q (l.filterMap (fun p => (h p).map (fun b => (p, b)))) =
        if q ∈ l then h q else none := by
  intro l
  induction l with
  | nil => intro q; simp
  | cons p t ih =>
    intro q
    cases hp : h p with
    | none =>
      rw [List.filterMap_cons_none (by simp [hp]), ih]
      by_cases hq : q = p
      · subst hq; simp [hp]
      · simp [List.mem_cons, hq]
    | some b =>
      simp only [List.filterMap_cons, hp, Option.map_some']
      by_cases hq : q = p
      · subst hq; simp [List.lookup_cons, hp]
      · rw [List.lookup_cons]
        have hb : (q == p) = false := beq_false_of_ne hq
        simp [hb, ih, List.mem_cons, hq]

theorem lookup_none_of_not_mem_keys {β : Type} :
    ∀ (w : List (String × β)) (q : String), q ∉ w.map Prod.fst →
      List.lookup q w = none := by
  intro w
  induction w with
  | nil => intro q _; rfl
  | cons kv t ih =>
    intro q hq
    obtain ⟨k, b⟩ := kv
    simp only [List.map_cons, List.mem_cons] at hq
    push_neg at hq
    rw [List.lookup_cons]
    have hb : (q == k) = false := beq_false_of_ne hq.1
    simp [hb, ih q hq.2]

theorem lookup_of_mem_nodup {β : Type} :
    ∀ (w : List (String × β)) (p : String) (b : β), (w.map Prod.fst).Nodup →
      (p, b) ∈ w → List.lookup p w = some b := by
  intro w
  induction w with
  | nil => intro p b _ hm; cases hm
  | cons kv t ih =>
    intro p b hnd hm
    obtain ⟨k, c⟩ := kv
    simp only [List.map_cons, List.nodup_cons] at hnd
    rcases List.mem_cons.mp hm with heq | hmt
    · cases heq
      simp [List.lookup_cons]
    · have hpk : p ≠ k := by
        intro hc; subst hc
        exact hnd.1 (List.mem_map.mpr ⟨(p, b), hmt, rfl⟩)
      rw [List.lookup_cons]
      have hb : (p == k) = false := beq_false_of_ne hpk
      simp [hb, ih p b hnd.2 hmt]

theorem keys_keyed_filterMap_sublist {β : Type} (h : String → Option β) :
    ∀ l : List String,
      ((l.filterMap (fun p => (h p).map (fun b => (p, b)))).map Prod.fst).Sublist l := by
  intro l
  induction l with
  | nil => simp
  | cons p t ih =>
    cases hp : h p with
    | none =>
      rw [List.filterMap_cons_none (by simp [hp])]
      exact ih.cons p
    | some b =>
      simp only [List.filterMap_cons, hp, Option.map_some']
      simpa using ih.cons₂ p

theorem keys_entry_filterMap_sublist {β : Type} (g : String → List Finding → Option β) :
    ∀ v : List (String × List Finding),
      ((v.filterMap (fun pv => (g pv.1 pv.2).map (fun b => (pv.1, b)))).map Prod.fst).Sublist
        (v.map Prod.fst) := by
  intro v
  induction v with
  | nil => simp
  | cons pv t ih =>
    cases hg : g pv.1 pv.2 with
    | none =>
      rw [List.filterMap_cons_none (by simp [hg])]
      exact ih.cons pv.1
    | some b =>
      simp only [List.filterMap_cons, hg, Option.map_some']
      simpa using ih.cons₂ pv.1

theorem lookup_entry_filterMap {β : Type} (g : String → List Finding → Option β) :
    ∀ (v : List (String × List Finding)) (q : String), (v.map Prod.fst).Nodup →
      List.lookup q (v.filterMap (fun pv => (g pv.1 pv.2).map (fun b => (pv.1, b)))) =
        (List.lookup q v).bind (g q) := by
  intro v
  induction v with
  | nil => intro q _; rfl
  | cons pv t ih =>
    intro q hnd
    obtain ⟨p, fs⟩ := pv
    simp only [List.map_cons, List.nodup_cons] at hnd
    by_cases hq : q = p
    · subst hq
      cases hg : g q fs with
      | none =>
        rw [List.filterMap_cons_none (by simp [hg])]
        rw [lookup_none_of_not_mem_keys]
        · simp [List.lookup_cons, hg]
        · intro hc
          exact hnd.1 ((keys_entry_filterMap_sublist g t).mem hc)
      | some b =>
        simp only [List.filterMap_cons, hg, Option.map_some']
        simp [List.lookup_cons, hg]
    · have hb : (q == p) = false := beq_false_of_ne hq
      cases hg : g p fs with
      | none =>
        rw [List.filterMap_cons_none (by simp [hg])]
        simp [List.lookup_cons, hb, ih q hnd.2]
      | some b =>
        simp only [List.filterMap_cons, hg, Option.map_some']
        simp [List.lookup_cons, hb, ih q hnd.2]

theorem keys_entry_filterMap_eq {β : Type} (g : String → List Finding → Option β) :
    ∀ v : List (String × List Finding), (∀ pv ∈ v, (g pv.1 pv.2).isSome) →
      (v.filterMap (fun pv => (g pv.1 pv.2).map (fun b => (pv.1, b)))).map Prod.fst =
        v.map Prod.fst := by
  intro v
  induction v with
  | nil => intro _; rfl
  | cons pv t ih =>
    intro hall
    cases hg : g pv.1 pv.2 with
    | none =>
      have := hall pv (List.mem_cons_self pv t)
      rw [hg] at this
      cases this
    | some b =>
      simp only [List.filterMap_cons, hg, Option.map_some', List.map_cons]
      rw [ih (fun x hx => hall x (List.mem_cons_of_mem pv hx))]

theorem mem_uniqueFirstAux (a : String) :
    ∀ (l seen : List String), a ∈ uniqueFirstAux seen l ↔ a ∈ l ∧ a ∉ seen := by
  intro l
  induction l with
  | nil => intro seen; simp [uniqueFirstAux]
  | cons x xs ih =>
    intro seen
    by_cases hx : x ∈ seen
    · rw [uniqueFirstAux, if_pos hx, ih]
      constructor
      · rintro ⟨h1, h2⟩; exact ⟨List.mem_cons_of_mem x h1, h2⟩
      · rintro ⟨h1, h2⟩
        rcases List.mem_cons.mp h1 with rfl | h1
        · exact absurd hx h2
        · exact ⟨h1, h2⟩
    · rw [uniqueFirstAux, if_neg hx]
      by_cases hax : a = x
      · subst hax
        constructor
        · intro _; exact ⟨List.mem_cons_self a xs, hx⟩
        · intro _; exact List.mem_cons_self a _
      · constructor
        · intro hmem
          rcases List.mem_cons.mp hmem with rfl | hmem
          · exact absurd rfl hax
          · obtain ⟨h1, h2⟩ := (ih (x :: seen)).mp hmem
            exact ⟨List.mem_cons_of_mem x h1, fun hc => h2 (List.mem_cons_of_mem x hc)⟩
        · rintro ⟨h1, h2⟩
          rcases List.mem_cons.mp h1 with rfl | h1
          · exact absurd rfl hax
          · refine List.mem_cons_of_mem x ((ih (x :: seen)).mpr ⟨h1, ?_⟩)
            intro hc
            rcases List.mem_cons.mp hc with rfl | hc
            · exact hax rfl
            · exact h2 hc

theorem nodup_uniqueFirstAux : ∀ (l seen : List String), (uniqueFirstAux seen l).Nodup := by
  intro l
  induction l with
  | nil => intro _; simp [uniqueFirstAux]
  | cons x xs ih =>
    intro seen
    by_cases hx : x ∈ seen
    · rw [uniqueFirstAux, if_pos hx]; exact ih seen
    · rw [uniqueFirstAux, if_neg hx]
      refine List.nodup_cons.mpr ⟨?_, ih (x :: seen)⟩
      intro hc
      exact ((mem_uniqueFirstAux x xs (x :: seen)).mp hc).2 (List.mem_cons_self x seen)

theorem mem_uniqueFirst {a : String} {l : List String} : a ∈ uniqueFirst l ↔ a ∈ l := by
  rw [uniqueFirst, mem_uniqueFirstAux]
  simp

theorem lookup_detect (df : List Sample) (q : String) :
    List.lookup q (detect_violations df) =
      if q ∈ df.map (fun r => r.parameter) then detectEntry df q else none := by
  unfold detect_violations
  rw [lookup_keyed_filterMap]
  by_cases hq : q ∈ df.map (fun r => r.parameter) <;>
    simp [mem_uniqueFirst, hq]

theorem detect_keys_nodup (df : List Sample) :
    ((detect_violations df).map Prod.fst).Nodup := by
  unfold detect_violations
  exact (keys_keyed_filterMap_sublist _ _).nodup (nodup_uniqueFirstAux _ [])

theorem mem_detect {df : List Sample} {pv : String × List Finding}
    (h : pv ∈ detect_violations df) : detectEntry df pv.1 = some pv.2 := by
  unfold detect_violations at h
  obtain ⟨p, _, he⟩ := List.mem_filterMap.mp h
  cases hg : detectEntry df p with
  | none => rw [hg] at he; cases he
  | some fs =>
    rw [hg] at he
    cases he
    exact hg

theorem detectEntry_elim {df : List Sample} {p : String} {fs : List Finding}
    (h : detectEntry df p = some fs) :
    ∃ m, mcls p = some m ∧
      fs = (df.filter (fun r => r.parameter == p)).filterMap (sampleFinding p m) ∧
      fs ≠ [] := by
  unfold detectEntry at h
  cases hm : mcls p with
  | none => rw [hm] at h; cases h
  | some m =>
    rw [hm] at h
    dsimp only at h
    split at h
    · cases h
    · rename_i hne
      cases h
      exact ⟨m, rfl, rfl, by simpa [List.isEmpty_iff] using hne⟩

example :
    detect_violations [⟨"E.coli", ResultStr.lit "Absent", "TAP-1", "08:00"⟩] = [] := by
  with_unfolding_all decide

example :
    detect_violations [⟨"Lead", ResultStr.lit "N/A", "TAP-1", "08:00"⟩] = [] := by
  with_unfolding_all decide

theorem detectEntry_intro {df : List Sample} {p : String} {m : ℚ}
    (hm : mcls p = some m)
    (hne : (df.filter (fun r => r.parameter == p)).filterMap (sampleFinding p m) ≠ []) :
    detectEntry df p =
      some ((df.filter (fun r => r.parameter == p)).filterMap (sampleFinding p m)) := by
  unfold detectEntry
  rw [hm]
  dsimp only
  rw [if_neg (by simpa [List.isEmpty_iff] using hne)]

/-- C1: for every sample of a regulated numeric parameter (a limit-table
entry with non-zero limit) whose result parses as a real number, the
detector produces a finding for that sample iff the parsed result strictly
exceeds the limit (equality produces none); the finding's
`exceedance_factor` is `round(result / limit, 2)`; and the list stored for
that parameter in the findings map is exactly the per-sample findings over
that parameter's rows, so the finding is present in the map whenever the
sample is in the batch. -/
theorem numeric_sample_detection (df : List Sample) (r : Sample) (m v : ℚ)
    (hm : mcls r.parameter = some m) (hm0 : m ≠ 0)
    (hv : parseResult r.result = some v) :
    ((sampleFinding r.parameter m r).isSome = true ↔ m < v)
    ∧ (∀ f, sampleFinding r.parameter m r = some f →
        f.exceedance_factor = ExFactor.val (round2 (v / m)))
    ∧ (∀ fs, List.lookup r.parameter (detect_violations df) = some fs →
        fs = (df.filter (fun x => x.parameter == r.parameter)).filterMap
          (sampleFinding r.parameter m))
    ∧ (r ∈ df → m < v →
        ∃ fs, List.lookup r.parameter (detect_violations df) = some fs ∧
          ∀ f, sampleFinding r.parameter m r = some f → f ∈ fs) := by
  have hne : r.parameter ≠ "E.coli" := ne_ecoli_of_mcls hm hm0
  have hbe : (r.parameter == "E.coli") = false := beq_false_of_ne hne
  refine ⟨?_, ?_, ?_, ?_⟩
  · by_cases hlt : m < v
    · simp [sampleFinding, hbe, hv, hlt]
    · simp [sampleFinding, hbe, hv, hlt]
  · intro f hf
    simp only [sampleFinding, hbe, Bool.false_eq_true, if_false, hv] at hf
    split at hf
    · cases hf; rfl
    · cases hf
  · intro fs hfs
    rw [lookup_detect] at hfs
    split at hfs
    · obtain ⟨m', hm', hfs', -⟩ := detectEntry_elim hfs
      have hmm : m' = m := by rw [hm] at hm'; exact (Option.some.inj hm').symm
      subst hmm
      exact hfs'
    · cases hfs
  · intro hrdf hlt
    have hmem : r.parameter ∈ df.map (fun x => x.parameter) :=
      List.mem_map.mpr ⟨r, hrdf, rfl⟩
    have hsf : (sampleFinding r.parameter m r).isSome = true := by
      simp [sampleFinding, hbe, hv, hlt]
    obtain ⟨f0, hf0⟩ := Option.isSome_iff_exists.mp hsf
    have hrfilter : r ∈ df.filter (fun x => x.parameter == r.parameter) :=
      List.mem_filter.mpr ⟨hrdf, by simp⟩
    have hf0mem : f0 ∈ (df.filter (fun x => x.parameter == r.parameter)).filterMap
        (sampleFinding r.parameter m) :=
      List.mem_filterMap.mpr ⟨r, hrfilter, hf0⟩
    have hent := detectEntry_intro hm (fun hnil => by rw [hnil] at hf0mem; cases hf0mem)
    refine ⟨(df.filter (fun x => x.parameter == r.parameter)).filterMap
      (sampleFinding r.parameter m), ?_, ?_⟩
    · rw [lookup_detect, if_pos hmem]
      exact hent
    · intro f hf
      rw [hf0] at hf
      cases hf
      exact hf0mem

theorem numeric_sample_detection_witness :
    (sampleFinding "Lead" 15 ⟨"Lead", ResultStr.num 20, "TAP-1", "08:00"⟩).isSome = true :=
  (numeric_sample_detection [⟨"Lead", ResultStr.num 20, "TAP-1", "08:00"⟩]
    ⟨"Lead", ResultStr.num 20, "TAP-1", "08:00"⟩ 15 20 rfl (by norm_num) rfl).1.mpr
    (by norm_num)

/-- C2: for every sample of the zero-tolerance presence parameter E.coli
(limit `0` in the table), a finding is produced iff the result is the
sentinel string `'Present'` (any other value, including `'Absent'`, yields
none); emitted findings carry the literal `ACUTE` tag and tier `Tier 1`;
and the E.coli entry of the findings map is exactly the per-sample findings
over the E.coli rows. -/
theorem ecoli_presence_detection (df : List Sample) (r : Sample)
    (_hp : r.parameter = "E.coli") :
    mcls "E.coli" = some 0
    ∧ ((sampleFinding "E.coli" 0 r).isSome = true ↔ r.result = ResultStr.lit "Present")
    ∧ (∀ f, sampleFinding "E.coli" 0 r = some f →
        f.exceedance_factor = ExFactor.acute ∧ f.tier = "Tier 1")
    ∧ (∀ fs, List.lookup "E.coli" (detect_violations df) = some fs →
        fs = (df.filter (fun x => x.parameter == "E.coli")).filterMap
          (sampleFinding "E.coli" 0)) := by
  refine ⟨rfl, ?_, ?_, ?_⟩
  · cases hres : r.result with
    | lit s =>
      by_cases hs : s = "Present"
      · subst hs; simp [sampleFinding, isPresentSentinel, hres]
      · simp [sampleFinding, isPresentSentinel, hres, hs]
    | num q => simp [sampleFinding, isPresentSentinel, hres]
  · intro f hf
    simp only [sampleFinding] at hf
    split at hf
    · split at hf
      · cases hf; exact ⟨rfl, rfl⟩
      · cases hf
    · simp at *
  · intro fs hfs
    rw [lookup_detect] at hfs
    split at hfs
    · obtain ⟨m', hm', hfs', -⟩ := detectEntry_elim hfs
      have hmm : m' = 0 := by
        have : mcls "E.coli" = some 0 := rfl
        rw [this] at hm'
        exact (Option.some.inj hm').symm
      subst hmm
      exact hfs'
    · cases hfs

theorem ecoli_presence_detection_witness :
    (sampleFinding "E.coli" 0 ⟨"E.coli", ResultStr.lit "Present", "TAP-2", "09:00"⟩).isSome = true :=
  (ecoli_presence_detection [] ⟨"E.coli", ResultStr.lit "Present", "TAP-2", "09:00"⟩
    rfl).2.1.mpr rfl

/-- C5: a parameter with zero findings is never a key of the findings map
(every stored findings list is non-empty), and the severity and notices maps
only carry keys that are keys of the findings map. -/
theorem no_empty_entries (df : List Sample) (w : Option WaterSystemInfo) :
    (∀ p fs, (p, fs) ∈ detect_violations df → fs ≠ [])
    ∧ (∀ p, p ∈ (assess_severity (detect_violations df)).map Prod.fst →
        p ∈ (detect_violations df).map Prod.fst)
    ∧ (∀ p, p ∈ (generate_public_notifications (detect_violations df)
          (assess_severity (detect_violations df)) w).map Prod.fst →
        p ∈ (detect_violations df).map Prod.fst) := by
  refine ⟨?_, ?_, ?_⟩
  · intro p fs hmem
    obtain ⟨m, -, -, hne⟩ := detectEntry_elim (mem_detect hmem)
    exact hne
  · intro p hp
    unfold assess_severity at hp
    exact (keys_entry_filterMap_sublist _ _).mem hp
  · intro p hp
    simp only [generate_public_notifications] at hp
    exact (keys_entry_filterMap_sublist _ _).mem hp

theorem no_empty_entries_witness :
    ([⟨"TAP-1", ResultStr.num 20, 15, ExFactor.val (133/100), "08:00", "Tier 2"⟩] :
      List Finding) ≠ [] :=
  (no_empty_entries [⟨"Lead", ResultStr.num 20, "TAP-1", "08:00"⟩] none).1 "Lead"
    [⟨"TAP-1", ResultStr.num 20, 15, ExFactor.val (133/100), "08:00", "Tier 2"⟩]
    (by with_unfolding_all decide)

/-- C3: on any findings map produced by the detector, E.coli is labelled
CRITICAL unconditionally, and each other violated parameter is labelled from
the maximum exceedance factor of its findings — HIGH above the
parameter-specific threshold (2.0 for Lead, 1.5 for Copper, 2.0 for PFOA),
MODERATE otherwise; every violated parameter receives exactly one label. -/
theorem severity_labels (df : List Sample) (p : String) (fs : List Finding)
    (h : List.lookup p (detect_violations df) = some fs) :
    List.lookup p (assess_severity (detect_violations df)) =
      some (if p = "E.coli" then "CRITICAL - Immediate public health risk"
        else if p = "Lead" then
          (if maxEx fs > 2.0 then "HIGH - Significant health risk"
           else "MODERATE - Health concern")
        else if p = "Copper" then
          (if maxEx fs > 1.5 then "HIGH - Corrosion control failure"
           else "MODERATE - Corrosion monitoring required")
        else
          (if maxEx fs > 2.0 then "HIGH - Persistent contamination"
           else "MODERATE - Monitoring required")) := by
  have hk := detect_keys_nodup df
  have hlu : List.lookup p (assess_severity (detect_violations df)) =
      (List.lookup p (detect_violations df)).bind (sevLabel p) := by
    unfold assess_severity
    exact lookup_entry_filterMap sevLabel (detect_violations df) p hk
  rw [hlu, h]
  have hsome : detectEntry df p = some fs := by
    rw [lookup_detect] at h
    by_cases hmem : p ∈ df.map (fun r => r.parameter)
    · rwa [if_pos hmem] at h
    · rw [if_neg hmem] at h; cases h
  obtain ⟨m, hm, -, -⟩ := detectEntry_elim hsome
  rcases mcls_cases hm with ⟨hp, -⟩ | ⟨hp, -⟩ | ⟨hp, -⟩ | ⟨hp, -⟩ <;>
    subst hp <;> simp [sevLabel]

theorem severity_labels_witness :
    List.lookup "E.coli" (assess_severity (detect_violations
      [⟨"E.coli", ResultStr.lit "Present", "TAP-2", "09:00"⟩])) =
      some "CRITICAL - Immediate public health risk" := by
  have h := severity_labels [⟨"E.coli", ResultStr.lit "Present", "TAP-2", "09:00"⟩]
    "E.coli" [⟨"TAP-2", ResultStr.lit "Present", 0, ExFactor.acute, "09:00", "Tier 1"⟩]
    (by with_unfolding_all decide)
  simpa using h

theorem noticeFor_isSome (hdr : String) (sev : List (String × String))
    (p : String) (fs : List Finding) (h : (mcls p).isSome) :
    (noticeFor hdr sev p fs).isSome := by
  obtain ⟨m, hm⟩ := Option.isSome_iff_exists.mp h
  rcases mcls_cases hm with ⟨hp, -⟩ | ⟨hp, -⟩ | ⟨hp, -⟩ | ⟨hp, -⟩ <;>
    subst hp <;> simp [noticeFor]

/-- C4: on any findings map produced by the detector, the notification
generator emits exactly one notice per violated parameter (the notices map
has exactly the findings map's keys, without duplicates), and the
notification-requirement line rendered in each notice is the one looked up
from the tier of the first finding of that parameter's list. -/
theorem notifications_per_parameter (df : List Sample) (w : Option WaterSystemInfo)
    (p : String) (f0 : Finding) (rest : List Finding)
    (hmem : (p, f0 :: rest) ∈ detect_violations df) :
    ((generate_public_notifications (detect_violations df)
        (assess_severity (detect_violations df)) w).map Prod.fst =
      (detect_violations df).map Prod.fst)
    ∧ (((generate_public_notifications (detect_violations df)
        (assess_severity (detect_violations df)) w).map Prod.fst).Nodup)
    ∧ ∃ n, List.lookup p (generate_public_notifications (detect_violations df)
          (assess_severity (detect_violations df)) w) = some n ∧
        strOccurs (reqLine (notification_requirements f0.tier)) n := by
  have hknd := detect_keys_nodup df
  have hall : ∀ pv ∈ detect_violations df,
      (noticeFor (systemHeader w) (assess_severity (detect_violations df))
        pv.1 pv.2).isSome = true := by
    intro pv hpv
    obtain ⟨m, hm, -, -⟩ := detectEntry_elim (mem_detect hpv)
    exact noticeFor_isSome _ _ pv.1 pv.2 (by rw [hm]; rfl)
  have hkeys : (generate_public_notifications (detect_violations df)
      (assess_severity (detect_violations df)) w).map Prod.fst =
      (detect_violations df).map Prod.fst := by
    unfold generate_public_notifications
    exact keys_entry_filterMap_eq
      (fun a b => noticeFor (systemHeader w) (assess_severity (detect_violations df)) a b)
      _ hall
  refine ⟨hkeys, by rw [hkeys]; exact hknd, ?_⟩
  have hlu0 : List.lookup p (detect_violations df) = some (f0 :: rest) :=
    lookup_of_mem_nodup _ p _ hknd hmem
  have hlu : List.lookup p (generate_public_notifications (detect_violations df)
      (assess_severity (detect_violations df)) w) =
      (List.lookup p (detect_violations df)).bind
        (noticeFor (systemHeader w) (assess_severity (detect_violations df)) p) := by
    unfold generate_public_notifications
    exact lookup_entry_filterMap
      (fun a b => noticeFor (systemHeader w) (assess_severity (detect_violations df)) a b)
      _ p hknd
  rw [hlu, hlu0]
  obtain ⟨m, hm, -, -⟩ := detectEntry_elim (mem_detect hmem)
  rcases mcls_cases hm with ⟨hp, -⟩ | ⟨hp, -⟩ | ⟨hp, -⟩ | ⟨hp, -⟩ <;> subst hp <;>
    rw [Option.some_bind]
  · rw [show noticeFor (systemHeader w) (assess_severity (detect_violations df))
        "E.coli" (f0 :: rest) =
        some (ecoliNotice (systemHeader w) (notification_requirements f0.tier)
          ((List.lookup "E.coli" (assess_severity (detect_violations df))).getD ""))
      from by simp [noticeFor, headTier]]
    exact ⟨_, rfl, _, _, rfl⟩
  · rw [show noticeFor (systemHeader w) (assess_severity (detect_violations df))
        "Lead" (f0 :: rest) =
        some (leadNotice (systemHeader w) (f0 :: rest) (notification_requirements f0.tier)
          ((List.lookup "Lead" (assess_severity (detect_violations df))).getD ""))
      from by simp [noticeFor, headTier]]
    exact ⟨_, rfl, _, _, rfl⟩
  · rw [show noticeFor (systemHeader w) (assess_severity (detect_violations df))
        "Copper" (f0 :: rest) =
        some (copperNotice (systemHeader w) (f0 :: rest) (notification_requirements f0.tier)
          ((List.lookup "Copper" (assess_severity (detect_violations df))).getD ""))
      from by simp [noticeFor, headTier]]
    exact ⟨_, rfl, _, _, rfl⟩
  · rw [show noticeFor (systemHeader w) (assess_severity (detect_violations df))
        "PFOA" (f0 :: rest) =
        some (pfoaNotice (systemHeader w) (f0 :: rest) (notification_requirements f0.tier)
          ((List.lookup "PFOA" (assess_severity (detect_violations df))).getD ""))
      from by simp [noticeFor, headTier]]
    exact ⟨_, rfl, _, _, rfl⟩

theorem notifications_per_parameter_witness :
    (generate_public_notifications
        (detect_violations [⟨"Lead", ResultStr.num 20, "TAP-1", "08:00"⟩])
        (assess_severity (detect_violations [⟨"Lead", ResultStr.num 20, "TAP-1", "08:00"⟩]))
        none).map Prod.fst =
      (detect_violations [⟨"Lead", ResultStr.num 20, "TAP-1", "08:00"⟩]).map Prod.fst :=
  (notifications_per_parameter [⟨"Lead", ResultStr.num 20, "TAP-1", "08:00"⟩] none "Lead"
    ⟨"TAP-1", ResultStr.num 20, 15, ExFactor.val (133/100), "08:00", "Tier 2"⟩ []
    (by with_unfolding_all decide)).1

/-- C7: a sample of a regulated numeric parameter whose result fails to
parse is skipped by itself: the findings map computed with the malformed
sample present agrees, at every key, with the one computed with it absent
(other samples of the same parameter included); no exception is modelled
because the embedded detector is total. -/
theorem unparseable_sample_skipped (df1 df2 : List Sample) (s : Sample) (m : ℚ)
    (hm : mcls s.parameter = some m) (hm0 : m ≠ 0)
    (hpr : parseResult s.result = none) (q : String) :
    List.lookup q (detect_violations (df1 ++ s :: df2)) =
      List.lookup q (detect_violations (df1 ++ df2)) := by
  have hne : s.parameter ≠ "E.coli" := ne_ecoli_of_mcls hm hm0
  have hbe : (s.parameter == "E.coli") = false := beq_false_of_ne hne
  have hsf : ∀ m', sampleFinding s.parameter m' s = none := by
    intro m'
    simp [sampleFinding, hbe, hpr]
  rw [lookup_detect, lookup_detect]
  by_cases hq : q = s.parameter
  · subst hq
    have hcw : s.parameter ∈ (df1 ++ s :: df2).map (fun r => r.parameter) := by simp
    rw [if_pos hcw]
    have hent : detectEntry (df1 ++ s :: df2) s.parameter =
        detectEntry (df1 ++ df2) s.parameter := by
      unfold detectEntry
      rw [hm]
      dsimp only
      have hfil : (df1 ++ s :: df2).filter (fun r => r.parameter == s.parameter) =
          df1.filter (fun r => r.parameter == s.parameter) ++
            s :: df2.filter (fun r => r.parameter == s.parameter) := by
        simp [List.filter_append, List.filter_cons]
      rw [hfil, List.filterMap_append, List.filterMap_cons_none (hsf m),
        ← List.filterMap_append, ← List.filter_append]
    rw [hent]
    by_cases hc2 : s.parameter ∈ (df1 ++ df2).map (fun r => r.parameter)
    · rw [if_pos hc2]
    · rw [if_neg hc2]
      unfold detectEntry
      rw [hm]
      dsimp only
      have hfil0 : (df1 ++ df2).filter (fun r => r.parameter == s.parameter) = [] := by
        apply List.filter_eq_nil_iff.mpr
        intro a ha
        simp only [beq_eq_false_iff_ne, ne_eq, Bool.not_eq_true, beq_iff_eq]
        intro hcc
        exact hc2 (List.mem_map.mpr ⟨a, ha, hcc⟩)
      rw [hfil0]
      simp
  · have hfil : (df1 ++ s :: df2).filter (fun r => r.parameter == q) =
        (df1 ++ df2).filter (fun r => r.parameter == q) := by
      have hbq : (s.parameter == q) = false := beq_false_of_ne (fun hh => hq hh.symm)
      simp [List.filter_append, List.filter_cons, hbq]
    have hent : detectEntry (df1 ++ s :: df2) q = detectEntry (df1 ++ df2) q := by
      unfold detectEntry
      rw [hfil]
    have hcond : (q ∈ (df1 ++ s :: df2).map (fun r => r.parameter)) ↔
        (q ∈ (df1 ++ df2).map (fun r => r.parameter)) := by
      simp only [List.map_append, List.map_cons, List.mem_append, List.mem_cons]
      constructor
      · rintro (h | h | h)
        · exact Or.inl h
        · exact absurd h hq
        · exact Or.inr h
      · rintro (h | h)
        · exact Or.inl h
        · exact Or.inr (Or.inr h)
    by_cases h1 : q ∈ (df1 ++ df2).map (fun r => r.parameter)
    · rw [if_pos (hcond.mpr h1), if_pos h1, hent]
    · rw [if_neg (fun hc => h1 (hcond.mp hc)), if_neg h1]

theorem unparseable_sample_skipped_witness :
    List.lookup "Lead" (detect_violations
      ([] ++ (⟨"Lead", ResultStr.lit "N/A", "TAP-9", "07:00"⟩ : Sample) ::
        [⟨"Lead", ResultStr.num 20, "TAP-1", "08:00"⟩])) =
      List.lookup "Lead" (detect_violations
        ([] ++ [⟨"Lead", ResultStr.num 20, "TAP-1", "08:00"⟩])) :=
  unparseable_sample_skipped [] [⟨"Lead", ResultStr.num 20, "TAP-1", "08:00"⟩]
    ⟨"Lead", ResultStr.lit "N/A", "TAP-9", "07:00"⟩ 15 rfl (by norm_num) rfl "Lead"

/-- C9: the canonical acute immediate-action list (boil-water notice within
24 hours, repeat samples within 24 hours, immediate regulator notification,
emergency disinfection) is appended — as the leading block of
`immediate_actions_required` — exactly when the findings map contains an
E.coli entry. -/
theorem immediate_actions_ecoli (v : List (String × List Finding))
    (sev : List (String × String)) (w : Option WaterSystemInfo) (t : String) :
    hasKey "E.coli" v = true ↔
      ∃ rest, (generate_federal_reporting v sev w t).immediate_actions_required =
        boilWaterActions ++ rest := by
  constructor
  · intro h
    refine ⟨(if hasKey "Lead" v || hasKey "Copper" v then leadCopperActions else []) ++
      (if hasKey "PFOA" v then pfoaActions else []), ?_⟩
    simp only [generate_federal_reporting, h, if_true]
    exact List.append_assoc _ _ _
  · rintro ⟨rest, hr⟩
    by_cases h : hasKey "E.coli" v = true
    · exact h
    · exfalso
      rw [Bool.not_eq_true] at h
      simp only [generate_federal_reporting, h, Bool.false_eq_true, if_false] at hr
      cases hb1 : (hasKey "Lead" v || hasKey "Copper" v) <;>
        cases hb2 : hasKey "PFOA" v <;>
          rw [hb1, hb2] at hr <;>
            simp [boilWaterActions, leadCopperActions, pfoaActions] at hr

/-- C10: `long_term_actions` is the same constant five-item checklist on
every input — including the empty findings map, where the report still
carries the full checklist. -/
theorem long_term_actions_constant (v : List (String × List Finding))
    (sev : List (String × String)) (w : Option WaterSystemInfo) (t : String) :
    (generate_federal_reporting v sev w t).long_term_actions =
      ["Submit corrective action plan within 30 days",
       "Implement enhanced monitoring program",
       "Conduct system-wide evaluation",
       "Submit quarterly compliance reports",
       "Maintain public notification requirements"] := by
  simp [generate_federal_reporting, longTermActions]

/-- C6 (amended): the notices are a deterministic, clock-independent
function of the samples and system record, and the federal report is
deterministic in every field except `report_date`, which equals the ambient
clock date (so two runs with equal clock dates give byte-identical
outputs). -/
theorem pipeline_deterministic_modulo_clock (df : List Sample)
    (w : Option WaterSystemInfo) (t1 t2 : String) :
    ((runPipeline df w t1).1 = (runPipeline df w t2).1)
    ∧ ((runPipeline df w t1).2.report_date = t1)
    ∧ ({ (runPipeline df w t1).2 with report_date := "" } =
        { (runPipeline df w t2).2 with report_date := "" }) :=
  ⟨rfl, rfl, rfl⟩

/-- C6 counterexample: with identical explicit inputs (samples, severity,
system record) but two different ambient clock dates, the pipeline's
federal reports differ — the report is not a deterministic function of the
explicit inputs alone, because `report_date` is stamped from
`datetime.now()` rather than an explicitly passed report date. -/
theorem pipeline_clock_dependent :
    runPipeline [] none "2025-01-15" ≠ runPipeline [] none "2025-01-16" := by
  with_unfolding_all decide

set_option maxRecDepth 10000 in
/-- C8 counterexample: on the single PFOA sample `8.2` against limit `4`,
the generated PFOA notice exists but does not contain the text
`Exceedance Factor: 2.1x` — the template's one-decimal rendering of
`8.2 / 4` is `2.0`, not `2.1` (CPython: `f"{8.2/4:.1f}" == '2.0'`, since
the float value is `2.04999…`; the exact rational tie `2.05` also rounds
half-to-even to `2.0`). -/
theorem pfoa_notice_not_2_1x :
    (List.lookup "PFOA" ((runPipeline
        [⟨"PFOA", ResultStr.num (41/5), "Well-1", "08:00"⟩] none "2025-01-15").1)).isSome
      = true
    ∧ strOccursB "Exceedance Factor: 2.1x"
        ((List.lookup "PFOA" ((runPipeline
          [⟨"PFOA", ResultStr.num (41/5), "Well-1", "08:00"⟩] none "2025-01-15").1)).getD "")
      = false := by
  with_unfolding_all decide

set_option maxRecDepth 10000 in
/-- C8 (amended): on the single PFOA sample `8.2` against limit `4`, the
pipeline produces exactly one finding with exceedance factor `2.05`
(= 41/20) and tier `Tier 2`, and the PFOA notice contains
`Exceedance Factor: 2.0x` (the observed-to-limit ratio rendered at one
decimal) together with the 30-day Tier 2 notification requirement. -/
theorem pfoa_scenario :
    detect_violations [⟨"PFOA", ResultStr.num (41/5), "Well-1", "08:00"⟩] =
      [("PFOA", [⟨"Well-1", ResultStr.num (41/5), 4, ExFactor.val (41/20), "08:00", "Tier 2"⟩])]
    ∧ strOccursB "Exceedance Factor: 2.0x"
        ((List.lookup "PFOA" ((runPipeline
          [⟨"PFOA", ResultStr.num (41/5), "Well-1", "08:00"⟩] none "2025-01-15").1)).getD "")
      = true
    ∧ strOccursB "Notification Requirements: 30 days via Public Notice, Newspaper"
        ((List.lookup "PFOA" ((runPipeline
          [⟨"PFOA", ResultStr.num (41/5), "Well-1", "08:00"⟩] none "2025-01-15").1)).getD "")
      = true := by
  with_unfolding_all decide
